import Mathlib

/-!
# Verification of the OCI operator scripts (tag-driven DB-system scheduler and friends)

Shallow embedding of the decision and traversal logic of the repository's
Python scripts, chiefly `tags/OCI_vm_db_systems_stop_start_tagged_INST_PRCPLE.py`
(the stop/start scheduler), `OCI_objects_list_in_compartment.py` (the recursive
compartment listing) and `oci_database/OCI_exacc_vm_clusters_list_HTML_no_SDK.py`
(the HTML report script), together with theorems settling the specification's
claims about them.
-/

namespace OciScripts

/-! ## Data model (scheduler script)

Mirrors the OCI SDK objects the scheduler reads: DB nodes, DB systems (with
their defined tags as a namespace-indexed association list), and compartments.
-/

/-- A DB node as returned by `DatabaseClient.list_db_nodes`:
only the fields the script reads (`id`, `lifecycle_state`). -/
structure DBNode where
  id : String
  lifecycle_state : String
deriving DecidableEq, Repr

/-- A VM DB system as returned by `DatabaseClient.list_db_systems`:
only the fields the script reads.  `defined_tags` is the nested dictionary
`namespace -> key -> value`, embedded as an association list. -/
structure DBSystem where
  id : String
  display_name : String
  lifecycle_state : String
  defined_tags : List (String × List (String × String))
deriving DecidableEq, Repr

/-- A compartment as returned by `IdentityClient.list_compartments`. -/
structure Compartment where
  id : String
  name : String
  lifecycle_state : String
deriving DecidableEq, Repr

/-- The tenant state the scheduler reads through the API during one pass:
`db_systems cpt_id` is what `list_db_systems(compartment_id=cpt_id)` returns,
`db_nodes cpt_id dbs_id` is what `list_db_nodes(compartment_id, db_system_id)`
returns. -/
structure Env where
  db_systems : String → List DBSystem
  db_nodes : String → String → List DBNode

/-- Tag namespace, line 37 of the scheduler script: `tag_ns = "osc"`. -/
def tag_ns : String := "osc"

/-- Stop-tag key, line 38: `tag_key_stop = "automatic_shutdown"`. -/
def tag_key_stop : String := "automatic_shutdown"

/-- Start-tag key, line 39: `tag_key_start = "automatic_startup"`. -/
def tag_key_start : String := "automatic_startup"

/-- Dictionary access `defined_tags[ns][key]`: `none` models the `KeyError`
the Python expression raises when the namespace or the key is missing. -/
def lookupDefinedTag (tags : List (String × List (String × String)))
    (ns key : String) : Option String :=
  match tags.lookup ns with
  | some m => m.lookup key
  | none => none

/-- Lines 74-79 of the scheduler: the single `try` block reads the stop key and
then the start key; any exception makes **both** values `"none"`.  The result
is the pair `(tag_value_stop, tag_value_start)`. -/
def getTagValues (dbs : DBSystem) : String × String :=
  match lookupDefinedTag dbs.defined_tags tag_ns tag_key_stop,
        lookupDefinedTag dbs.defined_tags tag_ns tag_key_start with
  | some vstop, some vstart => (vstop, vstart)
  | _, _ => ("none", "none")

/-- The action the scheduler decides on for one DB system. -/
inductive Action where
  | start
  | stop
  | none
deriving DecidableEq, Repr

/-- The decision logic of lines 86 and 95 of the scheduler, in source order:
`if dbnode.lifecycle_state == "STOPPED" and tag_value_start == current_utc_time`
then start, `elif dbnode.lifecycle_state == "AVAILABLE" and
tag_value_stop == current_utc_time` then stop, else nothing. -/
def decision (node_state tag_value_stop tag_value_start current_utc_time : String) :
    Action :=
  if node_state == "STOPPED" && tag_value_start == current_utc_time then
    Action.start
  else if node_state == "AVAILABLE" && tag_value_stop == current_utc_time then
    Action.stop
  else
    Action.none

/-- Observable events of a scheduler run: printed lines and the API calls of
the `DatabaseClient` built for the current region (so every call event carries
the region whose endpoint it goes to). -/
inductive Event where
  | output (line : String)
  | listDbSystems (region cpt_id : String)
  | listDbNodes (region cpt_id db_system_id : String)
  | dbNodeAction (region node_id action : String)
deriving DecidableEq, Repr

/-- Is this event a call to the cloud API (as opposed to a printed line)? -/
def isApiCall : Event → Bool
  | Event.output _ => false
  | Event.listDbSystems _ _ => true
  | Event.listDbNodes _ _ _ => true
  | Event.dbNodeAction _ _ _ => true

/-- Is this event the mutating `db_node_action` call? -/
def isDbNodeAction : Event → Bool
  | Event.dbNodeAction _ _ _ => true
  | _ => false

/-- The region an API-call event is addressed to (`none` for printed lines). -/
def eventRegion : Event → Option String
  | Event.output _ => Option.none
  | Event.listDbSystems r _ => some r
  | Event.listDbNodes r _ _ => some r
  | Event.dbNodeAction r _ _ => some r

/-- The line prefix printed at lines 87 and 96 of the scheduler:
`"{:s}, {:s}, {:s}: ".format(datetime.utcnow().strftime("%T"), region, lcpt.name)`. -/
def header_line (region ts : String) (lcpt : Compartment) : String :=
  ts ++ ", " ++ region ++ ", " ++ lcpt.name ++ ": "

/-- Line 89: the message printed before the START action is issued. -/
def msg_starting (region ts : String) (lcpt : Compartment) (dbs : DBSystem) : String :=
  header_line region ts lcpt ++ "STARTING DB node for " ++ dbs.display_name ++
    " (" ++ dbs.id ++ ")"

/-- Line 92: the dry-run intent message for a start decision. -/
def msg_should_start (region ts : String) (lcpt : Compartment) (dbs : DBSystem) : String :=
  header_line region ts lcpt ++ "DB node for DB system " ++ dbs.display_name ++
    " (" ++ dbs.id ++
    ") SHOULD BE STARTED --> re-run script with --confirm_start to actually start databases"

/-- Line 98: the message printed before the STOP action is issued. -/
def msg_stopping (region ts : String) (lcpt : Compartment) (dbs : DBSystem) : String :=
  header_line region ts lcpt ++ "STOPPING DB node for " ++ dbs.display_name ++
    " (" ++ dbs.id ++ ")"

/-- Line 101: the dry-run intent message for a stop decision (the source's
text really says `--confirm_start` here; the typo is kept). -/
def msg_should_stop (region ts : String) (lcpt : Compartment) (dbs : DBSystem) : String :=
  header_line region ts lcpt ++ "DB node for DB system " ++ dbs.display_name ++
    " (" ++ dbs.id ++
    ") SHOULD BE STOPPED --> re-run script with --confirm_start to actually stop databases"

/-- Lines 86-101 of the scheduler: evaluation of a single DB system once its
first DB node is at hand.  `ts` stands for `datetime.utcnow().strftime("%T")`.
The branch structure is exactly the source's if/elif, routed through
`decision`, including the confirm-flag gating and the printed messages. -/
def evaluate_db_system (region ts : String) (lcpt : Compartment)
    (confirm_start confirm_stop : Bool) (current_utc_time : String)
    (dbs : DBSystem) (dbnode : DBNode) : List Event :=
  let tvs := getTagValues dbs
  match decision dbnode.lifecycle_state tvs.1 tvs.2 current_utc_time with
  | Action.start =>
      if confirm_start then
        [Event.output (msg_starting region ts lcpt dbs),
         Event.dbNodeAction region dbnode.id "START"]
      else
        [Event.output (msg_should_start region ts lcpt dbs)]
  | Action.stop =>
      if confirm_stop then
        [Event.output (msg_stopping region ts lcpt dbs),
         Event.dbNodeAction region dbnode.id "STOP"]
      else
        [Event.output (msg_should_stop region ts lcpt dbs)]
  | Action.none => []

/-- Lines 70-101: the loop over the DB systems of one compartment.  For each
non-`"TERMINED"` system the script calls `list_db_nodes` and indexes
`response.data[0]` without a guard; on an empty node list the Python raises
`IndexError` and the run aborts, modelled by `Except.error`. -/
def process_db_systems (env : Env) (region ts : String)
    (confirm_start confirm_stop : Bool) (current_utc_time : String)
    (lcpt : Compartment) : List DBSystem → Except String (List Event)
  | [] => Except.ok []
  | dbs :: rest =>
      if dbs.lifecycle_state ≠ "TERMINED" then
        match env.db_nodes lcpt.id dbs.id with
        | [] => Except.error "IndexError: list index out of range"
        | dbnode :: _ =>
            match process_db_systems env region ts confirm_start confirm_stop
                current_utc_time lcpt rest with
            | Except.ok more =>
                Except.ok (Event.listDbNodes region lcpt.id dbs.id ::
                  (evaluate_db_system region ts lcpt confirm_start confirm_stop
                      current_utc_time dbs dbnode ++ more))
            | Except.error e => Except.error e
      else
        process_db_systems env region ts confirm_start confirm_stop
          current_utc_time lcpt rest

/-- Lines 55-101, `process_compartment`: a `DELETED` compartment is skipped
before any API call; otherwise `list_db_systems` runs and every returned DB
system is evaluated. -/
def process_compartment (env : Env) (region ts : String)
    (confirm_start confirm_stop : Bool) (current_utc_time : String)
    (lcpt : Compartment) : Except String (List Event) :=
  if lcpt.lifecycle_state == "DELETED" then Except.ok []
  else
    match process_db_systems env region ts confirm_start confirm_stop
        current_utc_time lcpt (env.db_systems lcpt.id) with
    | Except.ok evts => Except.ok (Event.listDbSystems region lcpt.id :: evts)
    | Except.error e => Except.error e

/-- Lines 171-172 / 177-178: `for cpt in compartments: process_compartment(cpt)`
within one region's pass. -/
def process_all_compartments (env : Env) (region ts : String)
    (confirm_start confirm_stop : Bool) (current_utc_time : String) :
    List Compartment → Except String (List Event)
  | [] => Except.ok []
  | c :: rest =>
      match process_compartment env region ts confirm_start confirm_stop
          current_utc_time c with
      | Except.ok e1 =>
          match process_all_compartments env region ts confirm_start confirm_stop
              current_utc_time rest with
          | Except.ok e2 => Except.ok (e1 ++ e2)
          | Except.error e => Except.error e
      | Except.error e => Except.error e

/-- Lines 173-178, the `-a` loop of `main`: for each subscribed region the
signer's region is reassigned, a fresh `DatabaseClient` bound to that region
is built, and every compartment is processed with it. -/
def sweep_regions (env : Env) (ts : String)
    (confirm_start confirm_stop : Bool) (current_utc_time : String)
    (compartments : List Compartment) : List String → Except String (List Event)
  | [] => Except.ok []
  | r :: rest =>
      match process_all_compartments env r ts confirm_start confirm_stop
          current_utc_time compartments with
      | Except.ok e1 =>
          match sweep_regions env ts confirm_start confirm_stop
              current_utc_time compartments rest with
          | Except.ok e2 => Except.ok (e1 ++ e2)
          | Except.error e => Except.error e
      | Except.error e => Except.error e

/-- Two-digit rendering of the hour, as `strftime("%H")` produces. -/
def fmtHH (h : Nat) : String :=
  if h < 10 then "0" ++ toString h else toString h

/-- Line 149 of the scheduler:
`current_utc_time = datetime.utcnow().strftime("%H")+":00_UTC"`. -/
def mk_current_utc_time (hour : Nat) : String :=
  fmtHH hour ++ ":00_UTC"

/-! ## Recursive compartment traversal (`OCI_objects_list_in_compartment.py`)

Lines 371-376 (and identically 113-119): after processing a compartment, when
the `-r` option is given, `list_compartments` is called on it and the function
recurses into exactly the sub-compartments whose `lifecycle_state` is
`"ACTIVE"`.  The compartment tree is embedded as a mutual inductive pair
tree/forest. -/

mutual
inductive CptTree where
  | node (cid cname cstate : String) (children : CptForest) : CptTree
inductive CptForest where
  | nil : CptForest
  | cons (t : CptTree) (rest : CptForest) : CptForest
end

/-- Compartment id of the root node of a tree. -/
def CptTree.cid : CptTree → String
  | CptTree.node i _ _ _ => i

/-- Lifecycle state of the root node of a tree. -/
def CptTree.cstate : CptTree → String
  | CptTree.node _ _ s _ => s

mutual
/-- `list_region_specific_objects` restricted to its traversal skeleton: the
compartment itself is processed, then the recursion descends into exactly the
`ACTIVE` children (lines 371-376).  Returns the compartment ids processed, in
visit order. -/
def visitTree : CptTree → List String
  | CptTree.node i _ _ cs => i :: visitForest cs
/-- The `for sub_compartment in sub_compartments` loop of lines 374-376. -/
def visitForest : CptForest → List String
  | CptForest.nil => []
  | CptForest.cons c rest =>
      (if c.cstate == "ACTIVE" then visitTree c else []) ++ visitForest rest
end

mutual
/-- All nodes of a tree, in preorder. -/
def treeNodes : CptTree → List CptTree
  | CptTree.node i n s cs => CptTree.node i n s cs :: forestNodes cs
/-- All nodes of a forest, in preorder. -/
def forestNodes : CptForest → List CptTree
  | CptForest.nil => []
  | CptForest.cons c rest => treeNodes c ++ forestNodes rest
end

/-- The ids of the `ACTIVE` compartments in the subtree, in preorder: the
spec's description of the traversal result (its "flat set of all compartments
in the subtree whose lifecycle state is ACTIVE"). -/
def activeIdsTree (t : CptTree) : List String :=
  ((treeNodes t).filter (fun c => c.cstate == "ACTIVE")).map CptTree.cid

/-- Forest version of `activeIdsTree`. -/
def activeIdsForest (ts : CptForest) : List String :=
  ((forestNodes ts).filter (fun c => c.cstate == "ACTIVE")).map CptTree.cid

mutual
/-- No node of this tree is `ACTIVE`. -/
def noActiveTree : CptTree → Bool
  | CptTree.node _ _ s cs => (s != "ACTIVE") && noActiveForest cs
/-- No node of this forest is `ACTIVE`. -/
def noActiveForest : CptForest → Bool
  | CptForest.nil => true
  | CptForest.cons c rest => noActiveTree c && noActiveForest rest
end

mutual
/-- Well-formedness of a compartment tree: below a non-`ACTIVE` compartment
every compartment is non-`ACTIVE` (a deleted compartment has no active
descendants). -/
def consistentTree : CptTree → Bool
  | CptTree.node _ _ s cs =>
      if s == "ACTIVE" then consistentForest cs else noActiveForest cs
/-- Forest version of `consistentTree`. -/
def consistentForest : CptForest → Bool
  | CptForest.nil => true
  | CptForest.cons c rest => consistentTree c && consistentForest rest
end

/-- Compartment ids for which a `list_db_systems` call was issued during a
scheduler pass (the scheduler's notion of "processed compartment"). -/
def listedCptIds (evts : List Event) : List String :=
  evts.filterMap (fun e =>
    match e with
    | Event.listDbSystems _ c => some c
    | _ => Option.none)

/-! ## Exit-code model (all scripts)

Every process-terminating site of the scripts, with its code:
* `usage()` functions print the usage text and `exit(1)`
  (e.g. scheduler line 52, `OCI_objects_list_in_compartment.py` line 73);
* `OCI_exacc_vm_clusters_list_HTML_no_SDK.py` parses its arguments with
  `argparse` and a `required=True` mutually exclusive group
  (lines 1357-1370): on a usage error there (missing `-p`, unknown flag)
  `parser.error()` terminates the process with status **2**;
* profile not found in the config file: `exit(2)`
  (`OCI_objects_list_in_compartment.py` lines 411-416,
  `OCI_exacc_vm_clusters_list_HTML_no_SDK.py` line 1392);
* named compartment does not exist: `exit(3)`
  (`OCI_objects_list_in_compartment.py` lines 431-433);
* email environment variables unset: `exit(3)`
  (`OCI_exacc_vm_clusters_list_HTML_no_SDK.py` lines 1315-1324);
* `response_error` on a failed HTTP response: `exit(1)`
  (`OCI_exacc_vm_clusters_list_HTML_no_SDK.py` lines 95-100);
* end of script: `exit(0)`.
An unhandled exception (e.g. a listing-API fault, or the argument-count
fall-through of `OCI_objects_list_in_compartment.py` lines 389-408)
additionally terminates the process through the interpreter with a stack
trace; that abort path is modelled by error propagation
(`process_compartment` and friends), not as an `exit(...)` site here. -/

/-- The distinct kinds of process-terminating sites in the scripts. -/
inductive ExitSite where
  | script_success
  | usage_exit
  | argparse_usage_error
  | profile_not_found
  | compartment_not_found
  | email_env_missing
  | api_response_error
deriving DecidableEq, Repr

/-- The exit code each site passes to `exit(...)` in the sources
(`argparse_usage_error` is the status `argparse.ArgumentParser.error` uses). -/
def exit_code : ExitSite → Nat
  | ExitSite.script_success => 0
  | ExitSite.usage_exit => 1
  | ExitSite.argparse_usage_error => 2
  | ExitSite.profile_not_found => 2
  | ExitSite.compartment_not_found => 3
  | ExitSite.email_env_missing => 3
  | ExitSite.api_response_error => 1

/-- `response_error` of `OCI_exacc_vm_clusters_list_HTML_no_SDK.py`
(lines 95-100): `raise_for_status()` raising on a failed response leads to
`exit(1)`; a successful response continues (`none` = no exit). -/
def response_error (status_ok : Bool) : Option Nat :=
  if status_ok then Option.none else some 1

/-- Profile loading of `OCI_objects_list_in_compartment.py` lines 411-416
(same shape in the other profile-based scripts): a missing profile leads to
`exit(2)`. -/
def load_profile_exit (profile_found : Bool) : Option Nat :=
  if profile_found then Option.none else some 2

/-- Compartment-existence check of `OCI_objects_list_in_compartment.py`
lines 425-433: a compartment matching neither id nor name leads to `exit(3)`. -/
def compartment_check_exit (cpt_exists : Bool) : Option Nat :=
  if cpt_exists then Option.none else some 3

/-- `get_email_configuration` of `OCI_exacc_vm_clusters_list_HTML_no_SDK.py`
lines 1308-1324: any missing environment variable leads to `exit(3)`. -/
def email_config_exit (all_env_vars_set : Bool) : Option Nat :=
  if all_env_vars_set then Option.none else some 3

/-! ## Side effects of the ExaCC report script
(`OCI_exacc_vm_clusters_list_HTML_no_SDK.py`) -/

/-- External-state writes the report script can perform. -/
inductive ReportEffect where
  | sendEmail (recipients : String)
  | putObject (bucket objectName : String)
deriving DecidableEq, Repr

/-- `store_report_in_bucket` lines 1329-1334: the object name built from the
timestamp and the optional `--bucket-suffix`. -/
def object_name (now_str : String) (bucket_suffix : Option String) : String :=
  match bucket_suffix with
  | some s => "ExaCC_report_" ++ now_str ++ "_" ++ s ++ ".html"
  | Option.none => "ExaCC_report_" ++ now_str ++ ".html"

/-- End of `main` (lines 1478-1486): the report is emailed when `--email` is
given and PUT into an object-storage bucket when `--bucket-name` is given;
neither is guarded by any confirm flag. -/
def report_side_effects (email bucket_name : Option String)
    (now_str : String) (bucket_suffix : Option String) : List ReportEffect :=
  (match email with
   | some recipients => [ReportEffect.sendEmail recipients]
   | Option.none => []) ++
  (match bucket_name with
   | some b => [ReportEffect.putObject b (object_name now_str bucket_suffix)]
   | Option.none => [])

/-! ## Concrete instances used by witnesses and counterexamples -/

/-- A DB system tagged for automatic shutdown at 21:00 UTC and automatic
startup at 09:00 UTC. -/
def dbsBoth : DBSystem :=
  { id := "ocid1.dbsystem.d1", display_name := "db1",
    lifecycle_state := "AVAILABLE",
    defined_tags := [("osc", [("automatic_shutdown", "21:00_UTC"),
                              ("automatic_startup", "09:00_UTC")])] }

/-- A DB system tagged only for automatic shutdown (no startup key). -/
def dbsStopOnly : DBSystem :=
  { id := "ocid1.dbsystem.d2", display_name := "db2",
    lifecycle_state := "AVAILABLE",
    defined_tags := [("osc", [("automatic_shutdown", "21:00_UTC")])] }

/-- A DB system with no defined tags at all. -/
def dbsUntagged : DBSystem :=
  { id := "ocid1.dbsystem.d3", display_name := "db3",
    lifecycle_state := "AVAILABLE", defined_tags := [] }

/-- An available DB node. -/
def nodeAvail : DBNode :=
  { id := "ocid1.dbnode.n1", lifecycle_state := "AVAILABLE" }

/-- A stopped DB node. -/
def nodeStopped : DBNode :=
  { id := "ocid1.dbnode.n2", lifecycle_state := "STOPPED" }

/-- An active compartment. -/
def cptActive : Compartment :=
  { id := "ocid1.compartment.c1", name := "comp1", lifecycle_state := "ACTIVE" }

/-- A deleted compartment. -/
def cptDeleted : Compartment :=
  { id := "ocid1.compartment.c2", name := "comp2", lifecycle_state := "DELETED" }

/-- An environment with one DB system (tagged for 21:00 shutdown) whose node
is available, in every compartment. -/
def envOne : Env :=
  { db_systems := fun _ => [dbsBoth],
    db_nodes := fun _ _ => [nodeAvail] }

/-- An environment whose single DB system has an **empty** DB-node list. -/
def envNoNodes : Env :=
  { db_systems := fun _ => [dbsBoth],
    db_nodes := fun _ _ => [] }

/-- An environment with no DB systems anywhere. -/
def envEmpty : Env :=
  { db_systems := fun _ => [],
    db_nodes := fun _ _ => [] }

/-- Example compartment tree: an ACTIVE root with an ACTIVE child `a1` and a
DELETED child `d1` that itself has a child `g1` (even marked ACTIVE, to show
the traversal never reaches below a non-ACTIVE compartment). -/
def exampleTree : CptTree :=
  CptTree.node "root" "root" "ACTIVE"
    (CptForest.cons (CptTree.node "a1" "alpha" "ACTIVE" CptForest.nil)
      (CptForest.cons
        (CptTree.node "d1" "deleted" "DELETED"
          (CptForest.cons (CptTree.node "g1" "grandchild" "ACTIVE" CptForest.nil)
            CptForest.nil))
        CptForest.nil))

/-- A consistent example tree: ACTIVE root, ACTIVE child, DELETED child whose
grandchild is DELETED too. -/
def consistentExampleTree : CptTree :=
  CptTree.node "root" "root" "ACTIVE"
    (CptForest.cons (CptTree.node "a1" "alpha" "ACTIVE" CptForest.nil)
      (CptForest.cons
        (CptTree.node "d1" "deleted" "DELETED"
          (CptForest.cons
            (CptTree.node "g1" "grandchild" "DELETED" CptForest.nil)
            CptForest.nil))
        CptForest.nil))

/-! ## Helper lemmas about the decision function and tag reading -/

/-- The decision is `start` exactly when the node is `STOPPED` and the
start-tag value equals the bucket. -/
theorem decision_eq_start_iff (ns tvs tva bucket : String) :
    decision ns tvs tva bucket = Action.start ↔ ns = "STOPPED" ∧ tva = bucket := by
  constructor
  · intro h
    unfold decision at h
    split at h
    · next hc => simpa [Bool.and_eq_true, beq_iff_eq] using hc
    · split at h <;> cases h
  · rintro ⟨rfl, rfl⟩
    simp [decision]

/-- The decision is `stop` exactly when the node is `AVAILABLE` and the
stop-tag value equals the bucket. -/
theorem decision_eq_stop_iff (ns tvs tva bucket : String) :
    decision ns tvs tva bucket = Action.stop ↔ ns = "AVAILABLE" ∧ tvs = bucket := by
  constructor
  · intro h
    unfold decision at h
    split at h
    · cases h
    · split at h
      · next hc => simpa [Bool.and_eq_true, beq_iff_eq] using hc
      · cases h
  · rintro ⟨rfl, rfl⟩
    simp [decision]

/-- When the effective tag values are both `"none"` and the bucket is not the
literal string `"none"`, the decision is `none` whatever the node state. -/
theorem decision_none_tags (ns bucket : String) (hb : bucket ≠ "none") :
    decision ns "none" "none" bucket = Action.none := by
  unfold decision
  rw [if_neg, if_neg]
  · rintro hc
    rw [Bool.and_eq_true, beq_iff_eq, beq_iff_eq] at hc
    exact hb hc.2.symm
  · rintro hc
    rw [Bool.and_eq_true, beq_iff_eq, beq_iff_eq] at hc
    exact hb hc.2.symm

/-- The hour bucket `"HH:00_UTC"` is never the literal string `"none"`. -/
theorem mk_current_utc_time_ne_none (hour : Nat) :
    mk_current_utc_time hour ≠ "none" := by
  intro h
  have hlen := congrArg String.length h
  rw [mk_current_utc_time, String.length_append] at hlen
  have h7 : (":00_UTC" : String).length = 7 := rfl
  have h4 : ("none" : String).length = 4 := rfl
  omega

/-- An untagged resource: both effective tag values are `"none"`. -/
theorem getTagValues_untagged (dbs : DBSystem) (h : dbs.defined_tags = []) :
    getTagValues dbs = ("none", "none") := by
  simp [getTagValues, lookupDefinedTag, h]

/-- A resource missing the start key: the single `try` block fails on it and
**both** effective values become `"none"`. -/
theorem getTagValues_missing_start (dbs : DBSystem)
    (h : lookupDefinedTag dbs.defined_tags tag_ns tag_key_start = Option.none) :
    getTagValues dbs = ("none", "none") := by
  cases hstop : lookupDefinedTag dbs.defined_tags tag_ns tag_key_stop <;>
    simp [getTagValues, hstop, h]

/-- A resource missing the stop key: both effective values become `"none"`. -/
theorem getTagValues_missing_stop (dbs : DBSystem)
    (h : lookupDefinedTag dbs.defined_tags tag_ns tag_key_stop = Option.none) :
    getTagValues dbs = ("none", "none") := by
  cases hstart : lookupDefinedTag dbs.defined_tags tag_ns tag_key_start <;>
    simp [getTagValues, hstart, h]

/-- A `none` decision produces no event at all for this DB system. -/
theorem evaluate_eq_nil_of_decision_none (region ts : String) (lcpt : Compartment)
    (cs cp : Bool) (bucket : String) (dbs : DBSystem) (dbnode : DBNode)
    (h : decision dbnode.lifecycle_state (getTagValues dbs).1 (getTagValues dbs).2
        bucket = Action.none) :
    evaluate_db_system region ts lcpt cs cp bucket dbs dbnode = [] := by
  simp [evaluate_db_system, h]

/-! ## Claim theorems: decision table, confirm-flag gating, tag errors -/

/-- C1: the scheduler's per-DB-system decision follows the spec's table: an
`AVAILABLE` first node with matching stop tag gives `stop`, a `STOPPED` node
with matching start tag gives `start`, and every other node lifecycle state
gives `none` regardless of both tag values. -/
theorem c1_decision_table (node_state tvs tva bucket : String) :
    (node_state = "AVAILABLE" → tvs = bucket →
        decision node_state tvs tva bucket = Action.stop)
  ∧ (node_state = "STOPPED" → tva = bucket →
        decision node_state tvs tva bucket = Action.start)
  ∧ (node_state ≠ "AVAILABLE" → node_state ≠ "STOPPED" →
        decision node_state tvs tva bucket = Action.none) := by
  refine ⟨?_, ?_, ?_⟩
  · intro h1 h2
    exact (decision_eq_stop_iff _ _ _ _).2 ⟨h1, h2⟩
  · intro h1 h2
    exact (decision_eq_start_iff _ _ _ _).2 ⟨h1, h2⟩
  · intro h1 h2
    unfold decision
    rw [if_neg, if_neg]
    · rintro hc
      rw [Bool.and_eq_true, beq_iff_eq] at hc
      exact h1 hc.1
    · rintro hc
      rw [Bool.and_eq_true, beq_iff_eq] at hc
      exact h2 hc.1

/-- Witness for C1: the three rows of the table at concrete inputs. -/
theorem c1_decision_table_witness :
    decision "AVAILABLE" "21:00_UTC" "09:00_UTC" "21:00_UTC" = Action.stop
  ∧ decision "STOPPED" "21:00_UTC" "09:00_UTC" "09:00_UTC" = Action.start
  ∧ decision "PROVISIONING" "21:00_UTC" "09:00_UTC" "21:00_UTC" = Action.none :=
  ⟨(c1_decision_table "AVAILABLE" "21:00_UTC" "09:00_UTC" "21:00_UTC").1 rfl rfl,
   (c1_decision_table "STOPPED" "21:00_UTC" "09:00_UTC" "09:00_UTC").2.1 rfl rfl,
   (c1_decision_table "PROVISIONING" "21:00_UTC" "09:00_UTC" "21:00_UTC").2.2
     (by decide) (by decide)⟩

/-- C2: without the relevant confirm flag the scheduler only prints the intent
message (no `db_node_action` call); with the flag, exactly one
`db_node_action` call with the corresponding action is issued. -/
theorem c2_confirm_flag_gating (region ts bucket : String) (lcpt : Compartment)
    (b : Bool) (dbs : DBSystem) (dbnode : DBNode) :
    (decision dbnode.lifecycle_state (getTagValues dbs).1 (getTagValues dbs).2
        bucket = Action.start →
      evaluate_db_system region ts lcpt false b bucket dbs dbnode =
          [Event.output (msg_should_start region ts lcpt dbs)]
      ∧ (evaluate_db_system region ts lcpt true b bucket dbs dbnode).filter
          isDbNodeAction = [Event.dbNodeAction region dbnode.id "START"])
  ∧ (decision dbnode.lifecycle_state (getTagValues dbs).1 (getTagValues dbs).2
        bucket = Action.stop →
      evaluate_db_system region ts lcpt b false bucket dbs dbnode =
          [Event.output (msg_should_stop region ts lcpt dbs)]
      ∧ (evaluate_db_system region ts lcpt b true bucket dbs dbnode).filter
          isDbNodeAction = [Event.dbNodeAction region dbnode.id "STOP"]) := by
  constructor
  · intro h
    constructor
    · simp [evaluate_db_system, h]
    · simp [evaluate_db_system, h, isDbNodeAction]
  · intro h
    constructor
    · simp [evaluate_db_system, h]
    · simp [evaluate_db_system, h, isDbNodeAction]

/-- Witness for C2: a DB system tagged `automatic_startup = "09:00_UTC"` with
a `STOPPED` node at bucket `"09:00_UTC"`: the dry run only prints the intent
line, the confirmed run issues exactly one START call. -/
theorem c2_confirm_flag_gating_witness :
    evaluate_db_system "eu-frankfurt-1" "09:00:01" cptActive false false
        "09:00_UTC" dbsBoth nodeStopped =
      [Event.output (msg_should_start "eu-frankfurt-1" "09:00:01" cptActive dbsBoth)]
  ∧ (evaluate_db_system "eu-frankfurt-1" "09:00:01" cptActive true false
        "09:00_UTC" dbsBoth nodeStopped).filter isDbNodeAction =
      [Event.dbNodeAction "eu-frankfurt-1" nodeStopped.id "START"] :=
  ⟨((c2_confirm_flag_gating "eu-frankfurt-1" "09:00:01" "09:00_UTC" cptActive
      false dbsBoth nodeStopped).1 (by decide)).1,
   ((c2_confirm_flag_gating "eu-frankfurt-1" "09:00:01" "09:00_UTC" cptActive
      false dbsBoth nodeStopped).1 (by decide)).2⟩

/-- C4: a resource whose defined tags cannot be read is treated as having tag
value `"none"` for both keys, and an untagged resource yields decision `none`
at every hour bucket, whatever the node state. -/
theorem c4_untagged_resource (dbs : DBSystem) (h : dbs.defined_tags = [])
    (hour : Nat) (node_state : String) :
    getTagValues dbs = ("none", "none")
  ∧ decision node_state "none" "none" (mk_current_utc_time hour) = Action.none :=
  ⟨getTagValues_untagged dbs h,
   decision_none_tags node_state (mk_current_utc_time hour)
     (mk_current_utc_time_ne_none hour)⟩

/-- Witness for C4: the concrete untagged DB system at bucket `"09:00_UTC"`. -/
theorem c4_untagged_resource_witness :
    getTagValues dbsUntagged = ("none", "none")
  ∧ decision "STOPPED" "none" "none" (mk_current_utc_time 9) = Action.none :=
  c4_untagged_resource dbsUntagged (by decide) 9 "STOPPED"

/-- C9: a resource carrying exactly one of the two tag keys (only the stop key
or only the start key under namespace `osc`) gets **both** effective values
`"none"`; consequently a resource tagged only for shutdown produces no event
at all — in particular it is never stopped — even when its node is `AVAILABLE`
and its stop-tag value equals the current bucket. -/
theorem c9_single_key_discarded :
    (∀ (dbs : DBSystem) (v : String),
        lookupDefinedTag dbs.defined_tags tag_ns tag_key_stop = some v →
        lookupDefinedTag dbs.defined_tags tag_ns tag_key_start = Option.none →
        getTagValues dbs = ("none", "none"))
  ∧ (∀ (dbs : DBSystem) (v : String),
        lookupDefinedTag dbs.defined_tags tag_ns tag_key_start = some v →
        lookupDefinedTag dbs.defined_tags tag_ns tag_key_stop = Option.none →
        getTagValues dbs = ("none", "none"))
  ∧ (∀ (dbs : DBSystem) (hour : Nat) (region ts : String) (lcpt : Compartment)
        (cs cp : Bool) (dbnode : DBNode),
        lookupDefinedTag dbs.defined_tags tag_ns tag_key_stop =
            some (mk_current_utc_time hour) →
        lookupDefinedTag dbs.defined_tags tag_ns tag_key_start = Option.none →
        dbnode.lifecycle_state = "AVAILABLE" →
        evaluate_db_system region ts lcpt cs cp (mk_current_utc_time hour)
            dbs dbnode = []) := by
  refine ⟨?_, ?_, ?_⟩
  · intro dbs v hstop hstart
    exact getTagValues_missing_start dbs hstart
  · intro dbs v hstart hstop
    exact getTagValues_missing_stop dbs hstop
  · intro dbs hour region ts lcpt cs cp dbnode hstop hstart hns
    have htv : getTagValues dbs = ("none", "none") :=
      getTagValues_missing_start dbs hstart
    apply evaluate_eq_nil_of_decision_none
    rw [htv]
    exact decision_none_tags dbnode.lifecycle_state (mk_current_utc_time hour)
      (mk_current_utc_time_ne_none hour)

/-- Witness for C9: the shutdown-only DB system, available node, bucket equal
to its stop-tag value `"21:00_UTC"`: both effective values are `"none"` and
nothing happens. -/
theorem c9_single_key_discarded_witness :
    getTagValues dbsStopOnly = ("none", "none")
  ∧ evaluate_db_system "eu-frankfurt-1" "21:00:02" cptActive true true
      (mk_current_utc_time 21) dbsStopOnly nodeAvail = [] :=
  ⟨c9_single_key_discarded.1 dbsStopOnly "21:00_UTC" (by decide) (by decide),
   c9_single_key_discarded.2.2 dbsStopOnly 21 "eu-frankfurt-1" "21:00:02"
     cptActive true true nodeAvail (by decide) (by decide) (by decide)⟩

/-! ## Where `db_node_action` events come from -/

/-- Any `db_node_action` event emitted while evaluating one DB system carries
the pass's region, targets the first node's id, and is a confirmed START on a
`STOPPED` node or a confirmed STOP on an `AVAILABLE` node. -/
theorem action_mem_evaluate (region ts : String) (lcpt : Compartment)
    (cs cp : Bool) (bucket : String) (dbs : DBSystem) (dbnode : DBNode)
    (r n a : String)
    (h : Event.dbNodeAction r n a ∈
        evaluate_db_system region ts lcpt cs cp bucket dbs dbnode) :
    r = region ∧ n = dbnode.id ∧
      ((a = "START" ∧ cs = true ∧ dbnode.lifecycle_state = "STOPPED")
     ∨ (a = "STOP" ∧ cp = true ∧ dbnode.lifecycle_state = "AVAILABLE")) := by
  rcases hd : decision dbnode.lifecycle_state (getTagValues dbs).1
      (getTagValues dbs).2 bucket with _ | _ | _
  · have hs := (decision_eq_start_iff _ _ _ _).1 hd
    cases cs <;> simp [evaluate_db_system, hd] at h
    obtain ⟨hr, hn, ha⟩ := h
    exact ⟨hr, hn, Or.inl ⟨ha, rfl, hs.1⟩⟩
  · have hs := (decision_eq_stop_iff _ _ _ _).1 hd
    cases cp <;> simp [evaluate_db_system, hd] at h
    obtain ⟨hr, hn, ha⟩ := h
    exact ⟨hr, hn, Or.inr ⟨ha, rfl, hs.1⟩⟩
  · simp [evaluate_db_system, hd] at h

/-- Lifting of `action_mem_evaluate` through the DB-system loop: any
`db_node_action` event of a successful `process_db_systems` run comes from
the head node of some system's `list_db_nodes` answer. -/
theorem action_source_process_db_systems (env : Env) (region ts : String)
    (cs cp : Bool) (bucket : String) (lcpt : Compartment) :
    ∀ (dbss : List DBSystem) (evts : List Event),
      process_db_systems env region ts cs cp bucket lcpt dbss = Except.ok evts →
      ∀ r n a, Event.dbNodeAction r n a ∈ evts →
        ∃ (dbs : DBSystem) (dbnode : DBNode) (tail : List DBNode),
          env.db_nodes lcpt.id dbs.id = dbnode :: tail ∧ r = region ∧
          n = dbnode.id ∧
          ((a = "START" ∧ cs = true ∧ dbnode.lifecycle_state = "STOPPED")
         ∨ (a = "STOP" ∧ cp = true ∧ dbnode.lifecycle_state = "AVAILABLE")) := by
  intro dbss
  induction dbss with
  | nil =>
      intro evts h r n a hmem
      rw [process_db_systems] at h
      cases h
      simp at hmem
  | cons dbs rest ih =>
      intro evts h r n a hmem
      rw [process_db_systems] at h
      by_cases ht : dbs.lifecycle_state ≠ "TERMINED"
      · rw [if_pos ht] at h
        cases hn : env.db_nodes lcpt.id dbs.id with
        | nil => rw [hn] at h; cases h
        | cons dbnode tail =>
            rw [hn] at h
            cases hrest : process_db_systems env region ts cs cp bucket lcpt rest with
            | error e => rw [hrest] at h; cases h
            | ok more =>
                rw [hrest] at h
                cases h
                simp only [List.mem_cons, List.mem_append] at hmem
                rcases hmem with hmem | hmem | hmem
                · cases hmem
                · obtain ⟨hr, hn', hk⟩ := action_mem_evaluate region ts lcpt cs cp
                    bucket dbs dbnode r n a hmem
                  exact ⟨dbs, dbnode, tail, hn, hr, hn', hk⟩
                · exact ih more hrest r n a hmem
      · rw [if_neg ht] at h
        exact ih evts h r n a hmem

/-- Lifting to one compartment pass. -/
theorem action_source_process_compartment (env : Env) (region ts : String)
    (cs cp : Bool) (bucket : String) (lcpt : Compartment) (evts : List Event)
    (h : process_compartment env region ts cs cp bucket lcpt = Except.ok evts)
    (r n a : String) (hmem : Event.dbNodeAction r n a ∈ evts) :
    ∃ (dbs : DBSystem) (dbnode : DBNode) (tail : List DBNode),
      env.db_nodes lcpt.id dbs.id = dbnode :: tail ∧ r = region ∧
      n = dbnode.id ∧
      ((a = "START" ∧ cs = true ∧ dbnode.lifecycle_state = "STOPPED")
     ∨ (a = "STOP" ∧ cp = true ∧ dbnode.lifecycle_state = "AVAILABLE")) := by
  unfold process_compartment at h
  by_cases hdel : lcpt.lifecycle_state == "DELETED"
  · rw [if_pos hdel] at h
    cases h
    simp at hmem
  · rw [if_neg hdel] at h
    cases hsub : process_db_systems env region ts cs cp bucket lcpt
        (env.db_systems lcpt.id) with
    | error e => rw [hsub] at h; cases h
    | ok sub =>
        rw [hsub] at h
        cases h
        simp only [List.mem_cons] at hmem
        rcases hmem with hmem | hmem
        · cases hmem
        · exact action_source_process_db_systems env region ts cs cp bucket lcpt
            (env.db_systems lcpt.id) sub hsub r n a hmem

/-- C3: in one evaluation pass over a compartment no resource is both started
and stopped.  The hypothesis `hcons` states that the lifecycle state observed
at read time is a function of the node id (one read, one state).  Under it,
a START and a STOP event can never target the same node, since a START is
only issued for a node observed `STOPPED` and a STOP only for one observed
`AVAILABLE`. -/
theorem c3_no_start_and_stop (env : Env) (region ts : String) (cs cp : Bool)
    (bucket : String) (lcpt : Compartment) (evts : List Event)
    (hok : process_compartment env region ts cs cp bucket lcpt = Except.ok evts)
    (hcons : ∀ (c1 d1 c2 d2 : String) (n1 n2 : DBNode),
      n1 ∈ env.db_nodes c1 d1 → n2 ∈ env.db_nodes c2 d2 → n1.id = n2.id →
      n1.lifecycle_state = n2.lifecycle_state)
    (r1 r2 n : String) :
    ¬(Event.dbNodeAction r1 n "START" ∈ evts
      ∧ Event.dbNodeAction r2 n "STOP" ∈ evts) := by
  rintro ⟨h1, h2⟩
  obtain ⟨dbs1, node1, tail1, hn1, -, hid1, hk1⟩ :=
    action_source_process_compartment env region ts cs cp bucket lcpt evts hok
      r1 n "START" h1
  obtain ⟨dbs2, node2, tail2, hn2, -, hid2, hk2⟩ :=
    action_source_process_compartment env region ts cs cp bucket lcpt evts hok
      r2 n "STOP" h2
  rcases hk1 with ⟨-, -, hs1⟩ | ⟨habs, -, -⟩
  · rcases hk2 with ⟨habs, -, -⟩ | ⟨-, -, hs2⟩
    · exact absurd habs (by decide)
    · have hmem1 : node1 ∈ env.db_nodes lcpt.id dbs1.id := by
        rw [hn1]; exact List.mem_cons_self _ _
      have hmem2 : node2 ∈ env.db_nodes lcpt.id dbs2.id := by
        rw [hn2]; exact List.mem_cons_self _ _
      have heq := hcons lcpt.id dbs1.id lcpt.id dbs2.id node1 node2 hmem1 hmem2
        (hid1.symm.trans hid2)
      rw [hs1, hs2] at heq
      exact absurd heq (by decide)
  · exact absurd habs (by decide)

/-- Witness for C3: the one-DB-system environment, bucket matching the stop
tag, both confirm flags set — the pass emits a STOP yet the theorem applies. -/
theorem c3_no_start_and_stop_witness :
    ¬(Event.dbNodeAction "eu-frankfurt-1" nodeAvail.id "START" ∈
        [Event.listDbSystems "eu-frankfurt-1" cptActive.id,
         Event.listDbNodes "eu-frankfurt-1" cptActive.id dbsBoth.id,
         Event.output (msg_stopping "eu-frankfurt-1" "21:00:03" cptActive dbsBoth),
         Event.dbNodeAction "eu-frankfurt-1" nodeAvail.id "STOP"]
      ∧ Event.dbNodeAction "eu-frankfurt-1" nodeAvail.id "STOP" ∈
        [Event.listDbSystems "eu-frankfurt-1" cptActive.id,
         Event.listDbNodes "eu-frankfurt-1" cptActive.id dbsBoth.id,
         Event.output (msg_stopping "eu-frankfurt-1" "21:00:03" cptActive dbsBoth),
         Event.dbNodeAction "eu-frankfurt-1" nodeAvail.id "STOP"]) :=
  c3_no_start_and_stop envOne "eu-frankfurt-1" "21:00:03" true true "21:00_UTC"
    cptActive _ rfl
    (by
      intro c1 d1 c2 d2 n1 n2 h1 h2 _
      simp only [envOne, List.mem_singleton] at h1 h2
      rw [h1, h2])
    "eu-frankfurt-1" "eu-frankfurt-1" nodeAvail.id

/-! ## C10: the unguarded `response.data[0]` -/

/-- When every non-`TERMINED` DB system of the compartment has at least one
node, the DB-system loop cannot abort. -/
theorem process_db_systems_ok (env : Env) (region ts : String) (cs cp : Bool)
    (bucket : String) (lcpt : Compartment) :
    ∀ dbss : List DBSystem,
      (∀ dbs ∈ dbss, dbs.lifecycle_state ≠ "TERMINED" →
          env.db_nodes lcpt.id dbs.id ≠ []) →
      ∃ evts, process_db_systems env region ts cs cp bucket lcpt dbss =
        Except.ok evts := by
  intro dbss
  induction dbss with
  | nil => intro _; exact ⟨[], rfl⟩
  | cons dbs rest ih =>
      intro hg
      obtain ⟨more, hmore⟩ := ih (fun d hd => hg d (List.mem_cons_of_mem _ hd))
      by_cases ht : dbs.lifecycle_state ≠ "TERMINED"
      · cases hn : env.db_nodes lcpt.id dbs.id with
        | nil => exact absurd hn (hg dbs (List.mem_cons_self _ _) ht)
        | cons node tail =>
            refine ⟨Event.listDbNodes region lcpt.id dbs.id ::
              (evaluate_db_system region ts lcpt cs cp bucket dbs node ++ more), ?_⟩
            rw [process_db_systems, if_pos ht, hn, hmore]
      · refine ⟨more, ?_⟩
        rw [process_db_systems, if_neg ht]
        exact hmore

/-- C10: `process_compartment` indexes `response.data[0]` without a guard.
On a DB system whose node list is empty the run aborts with an `IndexError`
(first conjunct, a concrete failing input); under the precondition that every
non-`TERMINED` DB system of the compartment has at least one DB node, the
pass is well-defined (second conjunct). -/
theorem c10_unguarded_first_node :
    process_compartment envNoNodes "eu-frankfurt-1" "10:00:00" false false
        "10:00_UTC" cptActive = Except.error "IndexError: list index out of range"
  ∧ (∀ (env : Env) (region ts : String) (cs cp : Bool) (bucket : String)
        (lcpt : Compartment),
        (∀ dbs ∈ env.db_systems lcpt.id, dbs.lifecycle_state ≠ "TERMINED" →
            env.db_nodes lcpt.id dbs.id ≠ []) →
        ∃ evts, process_compartment env region ts cs cp bucket lcpt =
          Except.ok evts) := by
  constructor
  · rfl
  · intro env region ts cs cp bucket lcpt hguard
    unfold process_compartment
    by_cases hdel : lcpt.lifecycle_state == "DELETED"
    · rw [if_pos hdel]
      exact ⟨[], rfl⟩
    · rw [if_neg hdel]
      obtain ⟨evts, hevts⟩ := process_db_systems_ok env region ts cs cp bucket
        lcpt (env.db_systems lcpt.id) hguard
      rw [hevts]
      exact ⟨_, rfl⟩

/-- Witness for C10 (second conjunct): the healthy one-node environment. -/
theorem c10_unguarded_first_node_witness :
    ∃ evts, process_compartment envOne "eu-frankfurt-1" "10:00:00" false false
      "10:00_UTC" cptActive = Except.ok evts :=
  c10_unguarded_first_node.2 envOne "eu-frankfurt-1" "10:00:00" false false
    "10:00_UTC" cptActive (by decide)

/-! ## C5: compartment traversal -/

/-- Evaluating one DB system never issues a `list_db_systems` call. -/
theorem listedCptIds_evaluate (region ts : String) (lcpt : Compartment)
    (cs cp : Bool) (bucket : String) (dbs : DBSystem) (dbnode : DBNode) :
    listedCptIds (evaluate_db_system region ts lcpt cs cp bucket dbs dbnode) = [] := by
  rcases hd : decision dbnode.lifecycle_state (getTagValues dbs).1
      (getTagValues dbs).2 bucket with _ | _ | _
  · cases cs <;> simp [evaluate_db_system, hd, listedCptIds]
  · cases cp <;> simp [evaluate_db_system, hd, listedCptIds]
  · simp [evaluate_db_system, hd, listedCptIds]

/-- The DB-system loop never issues a `list_db_systems` call. -/
theorem listedCptIds_process_db_systems (env : Env) (region ts : String)
    (cs cp : Bool) (bucket : String) (lcpt : Compartment) :
    ∀ (dbss : List DBSystem) (evts : List Event),
      process_db_systems env region ts cs cp bucket lcpt dbss = Except.ok evts →
      listedCptIds evts = [] := by
  intro dbss
  induction dbss with
  | nil =>
      intro evts h
      rw [process_db_systems] at h
      cases h
      rfl
  | cons dbs rest ih =>
      intro evts h
      rw [process_db_systems] at h
      by_cases ht : dbs.lifecycle_state ≠ "TERMINED"
      · rw [if_pos ht] at h
        cases hn : env.db_nodes lcpt.id dbs.id with
        | nil => rw [hn] at h; cases h
        | cons dbnode tail =>
            rw [hn] at h
            cases hrest : process_db_systems env region ts cs cp bucket lcpt rest with
            | error e => rw [hrest] at h; cases h
            | ok more =>
                rw [hrest] at h
                cases h
                have h1 := listedCptIds_evaluate region ts lcpt cs cp bucket dbs dbnode
                have h2 := ih more hrest
                simp only [listedCptIds, List.filterMap_cons, List.filterMap_append]
                   at h1 h2 ⊢
                rw [h1, h2]
                rfl
      · rw [if_neg ht] at h
        exact ih evts h

/-- One compartment pass issues a `list_db_systems` call exactly when the
compartment is not `DELETED`, on that compartment's id. -/
theorem listedCptIds_process_compartment (env : Env) (region ts : String)
    (cs cp : Bool) (bucket : String) (lcpt : Compartment) (evts : List Event)
    (h : process_compartment env region ts cs cp bucket lcpt = Except.ok evts) :
    listedCptIds evts =
      if lcpt.lifecycle_state == "DELETED" then [] else [lcpt.id] := by
  unfold process_compartment at h
  by_cases hdel : lcpt.lifecycle_state == "DELETED"
  · rw [if_pos hdel] at h
    cases h
    rw [if_pos hdel]
    rfl
  · rw [if_neg hdel] at h
    cases hsub : process_db_systems env region ts cs cp bucket lcpt
        (env.db_systems lcpt.id) with
    | error e => rw [hsub] at h; cases h
    | ok sub =>
        rw [hsub] at h
        cases h
        rw [if_neg hdel]
        have := listedCptIds_process_db_systems env region ts cs cp bucket lcpt
          (env.db_systems lcpt.id) sub hsub
        simp only [listedCptIds, List.filterMap_cons] at this ⊢
        rw [this]

/-- A whole pass over the compartment list issues `list_db_systems` exactly
for the non-`DELETED` compartments, in order. -/
theorem listedCptIds_pass (env : Env) (region ts : String) (cs cp : Bool)
    (bucket : String) :
    ∀ (cpts : List Compartment) (evts : List Event),
      process_all_compartments env region ts cs cp bucket cpts = Except.ok evts →
      listedCptIds evts =
        (cpts.filter (fun c => !(c.lifecycle_state == "DELETED"))).map
          Compartment.id := by
  intro cpts
  induction cpts with
  | nil =>
      intro evts h
      rw [process_all_compartments] at h
      cases h
      rfl
  | cons c rest ih =>
      intro evts h
      rw [process_all_compartments] at h
      cases hc : process_compartment env region ts cs cp bucket c with
      | error e => rw [hc] at h; cases h
      | ok e1 =>
          rw [hc] at h
          cases hrest : process_all_compartments env region ts cs cp bucket rest with
          | error e => rw [hrest] at h; cases h
          | ok e2 =>
              rw [hrest] at h
              cases h
              have h1 := listedCptIds_process_compartment env region ts cs cp
                bucket c e1 hc
              have h2 := ih e2 hrest
              simp only [listedCptIds, List.filterMap_append] at h1 h2 ⊢
              rw [h1, h2, List.filter_cons]
              by_cases hdel : c.lifecycle_state == "DELETED"
              · rw [if_pos hdel]
                simp [hdel]
              · rw [if_neg hdel]
                simp [hdel]

mutual
/-- A subtree with no `ACTIVE` node contributes nothing to the active filter. -/
theorem treeNodes_noActive : ∀ t : CptTree, noActiveTree t = true →
    (treeNodes t).filter (fun c => c.cstate == "ACTIVE") = []
  | CptTree.node i n s cs, h => by
      rw [noActiveTree, Bool.and_eq_true] at h
      obtain ⟨h1, h2⟩ := h
      rw [treeNodes, List.filter_cons]
      have hs : ((CptTree.node i n s cs).cstate == "ACTIVE") = false := by
        rw [CptTree.cstate]
        simpa using h1
      rw [hs]
      simpa using forestNodes_noActive cs h2
/-- Forest version of `treeNodes_noActive`. -/
theorem forestNodes_noActive : ∀ ts : CptForest, noActiveForest ts = true →
    (forestNodes ts).filter (fun c => c.cstate == "ACTIVE") = []
  | CptForest.nil, _ => by simp [forestNodes]
  | CptForest.cons c rest, h => by
      rw [noActiveForest, Bool.and_eq_true] at h
      rw [forestNodes, List.filter_append, treeNodes_noActive c h.1,
        forestNodes_noActive rest h.2]
      rfl
end

mutual
/-- On a consistent tree with an `ACTIVE` root, the recursive traversal visits
exactly the `ACTIVE` compartments of the subtree, in preorder. -/
theorem visitTree_eq_activeIds : ∀ t : CptTree, consistentTree t = true →
    t.cstate = "ACTIVE" → visitTree t = activeIdsTree t
  | CptTree.node i n s cs, hc, hs => by
      rw [CptTree.cstate] at hs
      subst hs
      rw [consistentTree] at hc
      rw [if_pos (by decide)] at hc
      rw [visitTree, visitForest_eq_activeIds cs hc, activeIdsTree, treeNodes,
        List.filter_cons]
      have hhead : ((CptTree.node i n "ACTIVE" cs).cstate == "ACTIVE") = true := by
        rw [CptTree.cstate]
        decide
      rw [hhead]
      rfl
/-- Forest version of `visitTree_eq_activeIds`. -/
theorem visitForest_eq_activeIds : ∀ ts : CptForest, consistentForest ts = true →
    visitForest ts = activeIdsForest ts
  | CptForest.nil, _ => by
      rw [visitForest, activeIdsForest, forestNodes]
      rfl
  | CptForest.cons c rest, hc => by
      rw [consistentForest, Bool.and_eq_true] at hc
      obtain ⟨hc1, hc2⟩ := hc
      rw [visitForest, activeIdsForest, forestNodes, List.filter_append,
        List.map_append]
      cases hact : (c.cstate == "ACTIVE") with
      | true =>
          rw [if_pos (show (true : Bool) = true from rfl)]
          rw [visitTree_eq_activeIds c hc1 (by simpa using hact),
            visitForest_eq_activeIds rest hc2]
          rfl
      | false =>
          rw [if_neg (show ¬((false : Bool) = true) from by decide)]
          have hnil : (treeNodes c).filter (fun x => x.cstate == "ACTIVE") = [] := by
            cases c with
            | node i nm s cs =>
                rw [CptTree.cstate] at hact
                rw [consistentTree, if_neg (by simp [hact])] at hc1
                exact treeNodes_noActive (CptTree.node i nm s cs)
                  (by rw [noActiveTree, Bool.and_eq_true]
                      exact ⟨by simpa using hact, hc1⟩)
          rw [hnil, visitForest_eq_activeIds rest hc2]
          rfl
end

/-- C5: (i) the scheduler's pass processes exactly the non-`DELETED`
compartments of the listed subtree (the `DELETED` check of line 61); (ii) the
recursive-report traversal over a consistent tree with an `ACTIVE` root
yields exactly the `ACTIVE` compartments of the subtree (lines 371-376 of
`OCI_objects_list_in_compartment.py`); (iii) on the concrete tree with one
`DELETED` child, that child and all of its descendants are excluded. -/
theorem c5_compartment_traversal :
    (∀ (env : Env) (region ts : String) (cs cp : Bool) (bucket : String)
        (cpts : List Compartment) (evts : List Event),
        process_all_compartments env region ts cs cp bucket cpts = Except.ok evts →
        listedCptIds evts =
          (cpts.filter (fun c => !(c.lifecycle_state == "DELETED"))).map
            Compartment.id)
  ∧ (∀ t : CptTree, consistentTree t = true → t.cstate = "ACTIVE" →
        visitTree t = activeIdsTree t)
  ∧ visitTree exampleTree = ["root", "a1"] :=
  ⟨fun env region ts cs cp bucket cpts evts h =>
      listedCptIds_pass env region ts cs cp bucket cpts evts h,
   fun t hc hs => visitTree_eq_activeIds t hc hs,
   rfl⟩

/-- Witness for C5: a concrete pass over an active and a deleted compartment,
and the consistent example tree. -/
theorem c5_compartment_traversal_witness :
    listedCptIds [Event.listDbSystems "eu-frankfurt-1" cptActive.id] =
      (([cptActive, cptDeleted].filter
          (fun c => !(c.lifecycle_state == "DELETED"))).map Compartment.id)
  ∧ visitTree consistentExampleTree = activeIdsTree consistentExampleTree :=
  ⟨c5_compartment_traversal.1 envEmpty "eu-frankfurt-1" "10:00:00" false false
      "10:00_UTC" [cptActive, cptDeleted]
      [Event.listDbSystems "eu-frankfurt-1" cptActive.id] rfl,
   c5_compartment_traversal.2.1 consistentExampleTree rfl rfl⟩

/-! ## C6: the all-regions sweep -/

/-- No `list_db_systems` event belongs to a list whose `listedCptIds` is empty. -/
theorem listDbSystems_not_mem (evts : List Event) (h : listedCptIds evts = [])
    (r cid : String) : Event.listDbSystems r cid ∉ evts := by
  intro hmem
  have hcid : cid ∈ listedCptIds evts := by
    unfold listedCptIds
    exact List.mem_filterMap.2 ⟨Event.listDbSystems r cid, hmem, rfl⟩
  rw [h] at hcid
  simp at hcid

/-- Every API call issued while evaluating one DB system goes to the pass's
region. -/
theorem apiRegion_evaluate (region ts : String) (lcpt : Compartment)
    (cs cp : Bool) (bucket : String) (dbs : DBSystem) (dbnode : DBNode) :
    ∀ e ∈ evaluate_db_system region ts lcpt cs cp bucket dbs dbnode,
      isApiCall e = true → eventRegion e = some region := by
  intro e he hapi
  rcases hd : decision dbnode.lifecycle_state (getTagValues dbs).1
      (getTagValues dbs).2 bucket with _ | _ | _
  · cases cs <;> simp [evaluate_db_system, hd] at he
    · subst he
      simp [isApiCall] at hapi
    · rcases he with he | he <;> subst he
      · simp [isApiCall] at hapi
      · rfl
  · cases cp <;> simp [evaluate_db_system, hd] at he
    · subst he
      simp [isApiCall] at hapi
    · rcases he with he | he <;> subst he
      · simp [isApiCall] at hapi
      · rfl
  · simp [evaluate_db_system, hd] at he

/-- Every API call of the DB-system loop goes to the pass's region. -/
theorem apiRegion_process_db_systems (env : Env) (region ts : String)
    (cs cp : Bool) (bucket : String) (lcpt : Compartment) :
    ∀ (dbss : List DBSystem) (evts : List Event),
      process_db_systems env region ts cs cp bucket lcpt dbss = Except.ok evts →
      ∀ e ∈ evts, isApiCall e = true → eventRegion e = some region := by
  intro dbss
  induction dbss with
  | nil =>
      intro evts h e he
      rw [process_db_systems] at h
      cases h
      simp at he
  | cons dbs rest ih =>
      intro evts h e he hapi
      rw [process_db_systems] at h
      by_cases ht : dbs.lifecycle_state ≠ "TERMINED"
      · rw [if_pos ht] at h
        cases hn : env.db_nodes lcpt.id dbs.id with
        | nil => rw [hn] at h; cases h
        | cons dbnode tail =>
            rw [hn] at h
            cases hrest : process_db_systems env region ts cs cp bucket lcpt rest with
            | error er => rw [hrest] at h; cases h
            | ok more =>
                rw [hrest] at h
                cases h
                simp only [List.mem_cons, List.mem_append] at he
                rcases he with he | he | he
                · subst he; rfl
                · exact apiRegion_evaluate region ts lcpt cs cp bucket dbs dbnode
                    e he hapi
                · exact ih more hrest e he hapi
      · rw [if_neg ht] at h
        exact ih evts h e he hapi

/-- Every API call of one compartment pass goes to the pass's region. -/
theorem apiRegion_process_compartment (env : Env) (region ts : String)
    (cs cp : Bool) (bucket : String) (lcpt : Compartment) (evts : List Event)
    (h : process_compartment env region ts cs cp bucket lcpt = Except.ok evts) :
    ∀ e ∈ evts, isApiCall e = true → eventRegion e = some region := by
  intro e he hapi
  unfold process_compartment at h
  by_cases hdel : lcpt.lifecycle_state == "DELETED"
  · rw [if_pos hdel] at h
    cases h
    simp at he
  · rw [if_neg hdel] at h
    cases hsub : process_db_systems env region ts cs cp bucket lcpt
        (env.db_systems lcpt.id) with
    | error er => rw [hsub] at h; cases h
    | ok sub =>
        rw [hsub] at h
        cases h
        simp only [List.mem_cons] at he
        rcases he with he | he
        · subst he; rfl
        · exact apiRegion_process_db_systems env region ts cs cp bucket lcpt
            (env.db_systems lcpt.id) sub hsub e he hapi

/-- Every API call of a whole region pass goes to that region. -/
theorem apiRegion_pass (env : Env) (region ts : String) (cs cp : Bool)
    (bucket : String) :
    ∀ (cpts : List Compartment) (evts : List Event),
      process_all_compartments env region ts cs cp bucket cpts = Except.ok evts →
      ∀ e ∈ evts, isApiCall e = true → eventRegion e = some region := by
  intro cpts
  induction cpts with
  | nil =>
      intro evts h e he
      rw [process_all_compartments] at h
      cases h
      simp at he
  | cons c rest ih =>
      intro evts h e he hapi
      rw [process_all_compartments] at h
      cases hc : process_compartment env region ts cs cp bucket c with
      | error er => rw [hc] at h; cases h
      | ok e1 =>
          rw [hc] at h
          cases hrest : process_all_compartments env region ts cs cp bucket rest with
          | error er => rw [hrest] at h; cases h
          | ok e2 =>
              rw [hrest] at h
              cases h
              rcases List.mem_append.1 he with he | he
              · exact apiRegion_process_compartment env region ts cs cp bucket c
                  e1 hc e he hapi
              · exact ih e2 hrest e he hapi

/-- From a successful sweep, each listed region's pass succeeded. -/
theorem sweep_pass_ok (env : Env) (ts : String) (cs cp : Bool) (bucket : String)
    (cpts : List Compartment) :
    ∀ (regions : List String) (evts : List Event),
      sweep_regions env ts cs cp bucket cpts regions = Except.ok evts →
      ∀ r ∈ regions, ∃ pevts,
        process_all_compartments env r ts cs cp bucket cpts = Except.ok pevts := by
  intro regions
  induction regions with
  | nil => intro evts _ r hr; simp at hr
  | cons r0 rest ih =>
      intro evts h r hr
      rw [sweep_regions] at h
      cases hp : process_all_compartments env r0 ts cs cp bucket cpts with
      | error er => rw [hp] at h; cases h
      | ok e1 =>
          rw [hp] at h
          cases hrest : sweep_regions env ts cs cp bucket cpts rest with
          | error er => rw [hrest] at h; cases h
          | ok e2 =>
              rcases List.mem_cons.1 hr with hr | hr
              · subst hr; exact ⟨e1, hp⟩
              · exact ih e2 hrest r hr

/-- How many times one compartment pass calls `list_db_systems` with a given
region and compartment id. -/
theorem count_listDbSystems_process_compartment (env : Env) (region ts : String)
    (cs cp : Bool) (bucket : String) (lcpt : Compartment) (evts : List Event)
    (h : process_compartment env region ts cs cp bucket lcpt = Except.ok evts)
    (r cid : String) :
    evts.count (Event.listDbSystems r cid) =
      if lcpt.lifecycle_state == "DELETED" then 0
      else if r = region ∧ cid = lcpt.id then 1 else 0 := by
  unfold process_compartment at h
  by_cases hdel : lcpt.lifecycle_state == "DELETED"
  · rw [if_pos hdel] at h
    cases h
    rw [if_pos hdel]
    rfl
  · rw [if_neg hdel] at h
    cases hsub : process_db_systems env region ts cs cp bucket lcpt
        (env.db_systems lcpt.id) with
    | error er => rw [hsub] at h; cases h
    | ok sub =>
        rw [hsub] at h
        cases h
        rw [if_neg hdel]
        have hnot : Event.listDbSystems r cid ∉ sub :=
          listDbSystems_not_mem sub
            (listedCptIds_process_db_systems env region ts cs cp bucket lcpt
              (env.db_systems lcpt.id) sub hsub) r cid
        rw [List.count_cons, List.count_eq_zero.2 hnot]
        simp only [Nat.zero_add, beq_iff_eq, Event.listDbSystems.injEq]
        by_cases h1 : region = r ∧ lcpt.id = cid
        · rw [if_pos h1, if_pos ⟨h1.1.symm, h1.2.symm⟩]
        · rw [if_neg h1, if_neg (fun h2 => h1 ⟨h2.1.symm, h2.2.symm⟩)]

/-- How many times one whole region pass calls `list_db_systems` with a given
region and compartment id. -/
theorem count_listDbSystems_pass (env : Env) (region ts : String)
    (cs cp : Bool) (bucket : String) :
    ∀ (cpts : List Compartment) (evts : List Event),
      process_all_compartments env region ts cs cp bucket cpts = Except.ok evts →
      ∀ r cid,
      evts.count (Event.listDbSystems r cid) =
        if r = region then
          ((cpts.filter (fun c => !(c.lifecycle_state == "DELETED"))).map
            Compartment.id).count cid
        else 0 := by
  intro cpts
  induction cpts with
  | nil =>
      intro evts h r cid
      rw [process_all_compartments] at h
      cases h
      simp
  | cons c rest ih =>
      intro evts h r cid
      rw [process_all_compartments] at h
      cases hc : process_compartment env region ts cs cp bucket c with
      | error er => rw [hc] at h; cases h
      | ok e1 =>
          rw [hc] at h
          cases hrest : process_all_compartments env region ts cs cp bucket rest with
          | error er => rw [hrest] at h; cases h
          | ok e2 =>
              rw [hrest] at h
              cases h
              rw [List.count_append,
                count_listDbSystems_process_compartment env region ts cs cp
                  bucket c e1 hc r cid,
                ih e2 hrest r cid, List.filter_cons]
              by_cases hr : r = region
              · by_cases hdel : c.lifecycle_state == "DELETED"
                · simp [hr, hdel]
                · by_cases hcid : cid = c.id
                  · simp only [hr, hdel, hcid, List.count_cons]
                    simp
                    omega
                  · simp [hr, hdel, hcid, List.count_cons,
                      Ne.symm hcid]
              · simp [hr]

/-- A region never mentioned in the sweep list gets no `list_db_systems`
call. -/
theorem count_listDbSystems_sweep_zero (env : Env) (ts : String) (cs cp : Bool)
    (bucket : String) (cpts : List Compartment) :
    ∀ (regions : List String) (evts : List Event),
      sweep_regions env ts cs cp bucket cpts regions = Except.ok evts →
      ∀ r cid, r ∉ regions → evts.count (Event.listDbSystems r cid) = 0 := by
  intro regions
  induction regions with
  | nil =>
      intro evts h r cid _
      rw [sweep_regions] at h
      cases h
      rfl
  | cons r0 rest ih =>
      intro evts h r cid hnm
      rw [sweep_regions] at h
      cases hp : process_all_compartments env r0 ts cs cp bucket cpts with
      | error er => rw [hp] at h; cases h
      | ok e1 =>
          rw [hp] at h
          cases hrest : sweep_regions env ts cs cp bucket cpts rest with
          | error er => rw [hrest] at h; cases h
          | ok e2 =>
              rw [hrest] at h
              cases h
              rw [List.count_append,
                count_listDbSystems_pass env r0 ts cs cp bucket cpts e1 hp r cid,
                ih e2 hrest r cid (fun hm => hnm (List.mem_cons_of_mem _ hm)),
                if_neg (show ¬(r = r0) from
                  fun hreq => hnm (by rw [hreq]; exact List.mem_cons_self _ _))]

/-- In a sweep with distinct regions, region `r`'s `list_db_systems` count for
a compartment id equals that id's count in the non-deleted compartments. -/
theorem count_listDbSystems_sweep (env : Env) (ts : String) (cs cp : Bool)
    (bucket : String) (cpts : List Compartment) :
    ∀ (regions : List String) (evts : List Event),
      sweep_regions env ts cs cp bucket cpts regions = Except.ok evts →
      regions.Nodup → ∀ r ∈ regions, ∀ cid,
      evts.count (Event.listDbSystems r cid) =
        ((cpts.filter (fun c => !(c.lifecycle_state == "DELETED"))).map
          Compartment.id).count cid := by
  intro regions
  induction regions with
  | nil => intro evts _ _ r hr; simp at hr
  | cons r0 rest ih =>
      intro evts h hnd r hr cid
      rw [sweep_regions] at h
      cases hp : process_all_compartments env r0 ts cs cp bucket cpts with
      | error er => rw [hp] at h; cases h
      | ok e1 =>
          rw [hp] at h
          cases hrest : sweep_regions env ts cs cp bucket cpts rest with
          | error er => rw [hrest] at h; cases h
          | ok e2 =>
              rw [hrest] at h
              cases h
              rw [List.count_append]
              rw [List.nodup_cons] at hnd
              rcases List.mem_cons.1 hr with hr | hr
              · subst hr
                rw [count_listDbSystems_pass env r ts cs cp bucket cpts e1 hp
                    r cid, if_pos rfl,
                  count_listDbSystems_sweep_zero env ts cs cp bucket cpts rest
                    e2 hrest r cid hnd.1]
                exact Nat.add_zero _
              · rw [count_listDbSystems_pass env r0 ts cs cp bucket cpts e1 hp
                    r cid,
                  if_neg (show ¬(r = r0) from
                    fun he => hnd.1 (by rw [← he]; exact hr)),
                  ih e2 hrest hnd.2 r hr cid]
                exact Nat.zero_add _

/-- C6: with the `-a` flag, the sweep runs one pass per subscribed region;
every API call of a region's pass uses that region's endpoint, and — for
distinct subscribed regions and distinct compartments — each region's
non-deleted compartments are each processed exactly once (exactly one
`list_db_systems` call per region/compartment pair). -/
theorem c6_all_regions_sweep (env : Env) (ts : String) (cs cp : Bool)
    (bucket : String) (cpts : List Compartment) (regions : List String)
    (evts : List Event)
    (hok : sweep_regions env ts cs cp bucket cpts regions = Except.ok evts)
    (hnr : regions.Nodup) (hnc : (cpts.map Compartment.id).Nodup) :
    (∀ r ∈ regions, ∃ pevts,
        process_all_compartments env r ts cs cp bucket cpts = Except.ok pevts
      ∧ ∀ e ∈ pevts, isApiCall e = true → eventRegion e = some r)
  ∧ (∀ r ∈ regions, ∀ c ∈ cpts, c.lifecycle_state ≠ "DELETED" →
      evts.count (Event.listDbSystems r c.id) = 1) := by
  constructor
  · intro r hr
    obtain ⟨pevts, hp⟩ := sweep_pass_ok env ts cs cp bucket cpts regions evts
      hok r hr
    exact ⟨pevts, hp, apiRegion_pass env r ts cs cp bucket cpts pevts hp⟩
  · intro r hr c hcm hcdel
    rw [count_listDbSystems_sweep env ts cs cp bucket cpts regions evts hok
      hnr r hr c.id]
    have hmem : c.id ∈ (cpts.filter
        (fun x => !(x.lifecycle_state == "DELETED"))).map Compartment.id :=
      List.mem_map_of_mem _ (List.mem_filter.2 ⟨hcm, by simp [hcdel]⟩)
    have hsub : List.Sublist
        ((cpts.filter (fun x => !(x.lifecycle_state == "DELETED"))).map
          Compartment.id)
        (cpts.map Compartment.id) :=
      (List.filter_sublist cpts).map Compartment.id
    exact List.count_eq_one_of_mem (List.Nodup.sublist hsub hnc) hmem

/-- Witness for C6: a two-region sweep over one active and one deleted
compartment in the one-DB-system environment (dry run). -/
theorem c6_all_regions_sweep_witness :
    ∃ pevts, process_all_compartments envOne "eu-frankfurt-1" "10:00:00"
        false false "10:00_UTC" [cptActive, cptDeleted] = Except.ok pevts
      ∧ ∀ e ∈ pevts, isApiCall e = true → eventRegion e = some "eu-frankfurt-1" :=
  (c6_all_regions_sweep envOne "10:00:00" false false "10:00_UTC"
      [cptActive, cptDeleted] ["eu-frankfurt-1", "eu-zurich-1"] _ rfl
      (by decide) (by decide)).1 "eu-frankfurt-1" (by decide)

/-! ## C7: exit codes -/

/-- C7 counterexample: the exit-code table of the claim fails twice on the
no-SDK report script.  Exit code 1 does **not** arise exactly on usage
errors — `response_error` exits with code 1 on a failed API response
(lines 95-100), which is not a usage error; and exit code 2 does **not**
arise exactly on profile-not-found — a usage error caught by that script's
`argparse` (missing required `-p`, lines 1357-1370) terminates with
status 2 without any profile lookup. -/
theorem c7_exit_code_counterexample :
    exit_code ExitSite.api_response_error = 1
  ∧ ExitSite.api_response_error ≠ ExitSite.usage_exit
  ∧ response_error false = some 1
  ∧ exit_code ExitSite.argparse_usage_error = 2
  ∧ ExitSite.argparse_usage_error ≠ ExitSite.profile_not_found := by decide

/-- C7 amended: exit code 0 on success; 1 on a usage error in the scripts
with a hand-rolled `usage()` or on an API response error in the no-SDK
report script; 2 on profile-not-found or on an `argparse` usage error in
the no-SDK report script; and 3 exactly on another configuration error
(nonexistent compartment or unset email environment variables). -/
theorem c7_amended_exit_codes :
    (∀ s : ExitSite, exit_code s = 0 ↔ s = ExitSite.script_success)
  ∧ (∀ s : ExitSite, exit_code s = 1 ↔
      (s = ExitSite.usage_exit ∨ s = ExitSite.api_response_error))
  ∧ (∀ s : ExitSite, exit_code s = 2 ↔
      (s = ExitSite.profile_not_found ∨ s = ExitSite.argparse_usage_error))
  ∧ (∀ s : ExitSite, exit_code s = 3 ↔
      (s = ExitSite.compartment_not_found ∨ s = ExitSite.email_env_missing))
  ∧ (∀ b : Bool, load_profile_exit b = some 2 ↔ b = false)
  ∧ (∀ b : Bool, response_error b = some 1 ↔ b = false)
  ∧ (∀ b : Bool, email_config_exit b = some 3 ↔ b = false)
  ∧ (∀ b : Bool, compartment_check_exit b = some 3 ↔ b = false) := by
  refine ⟨?_, ?_, ?_, ?_, ?_, ?_, ?_, ?_⟩
  · intro s; cases s <;> simp [exit_code]
  · intro s; cases s <;> simp [exit_code]
  · intro s; cases s <;> simp [exit_code]
  · intro s; cases s <;> simp [exit_code]
  · intro b; cases b <;> simp [load_profile_exit]
  · intro b; cases b <;> simp [response_error]
  · intro b; cases b <;> simp [email_config_exit]
  · intro b; cases b <;> simp [compartment_check_exit]

/-! ## C8: the repository's mutating calls -/

/-- Every `db_node_action` event of a scheduler pass is a START issued only
with `--confirm_start` or a STOP issued only with `--confirm_stop`. -/
theorem action_flags_pass (env : Env) (region ts : String) (cs cp : Bool)
    (bucket : String) :
    ∀ (cpts : List Compartment) (evts : List Event),
      process_all_compartments env region ts cs cp bucket cpts = Except.ok evts →
      ∀ r n a, Event.dbNodeAction r n a ∈ evts →
        (a = "START" ∧ cs = true) ∨ (a = "STOP" ∧ cp = true) := by
  intro cpts
  induction cpts with
  | nil =>
      intro evts h r n a hmem
      rw [process_all_compartments] at h
      cases h
      simp at hmem
  | cons c rest ih =>
      intro evts h r n a hmem
      rw [process_all_compartments] at h
      cases hc : process_compartment env region ts cs cp bucket c with
      | error er => rw [hc] at h; cases h
      | ok e1 =>
          rw [hc] at h
          cases hrest : process_all_compartments env region ts cs cp bucket rest with
          | error er => rw [hrest] at h; cases h
          | ok e2 =>
              rw [hrest] at h
              cases h
              rcases List.mem_append.1 hmem with hm | hm
              · obtain ⟨dbs1, node1, tail1, hn1, hr1, hid1, hk⟩ :=
                  action_source_process_compartment env region ts cs cp bucket c
                    e1 hc r n a hm
                rcases hk with ⟨ha, hcs, -⟩ | ⟨ha, hcp, -⟩
                · exact Or.inl ⟨ha, hcs⟩
                · exact Or.inr ⟨ha, hcp⟩
              · exact ih e2 hrest r n a hm

/-- C8 counterexample: with `--bucket-name reports` (and no confirm flag of
any kind in that script), the report script's run writes the HTML report to
object storage — a mutating call that is neither a start-node nor a stop-node
lifecycle action. -/
theorem c8_side_effects_counterexample :
    report_side_effects Option.none (some "reports") "2025-01-01_10:00"
        Option.none =
      [ReportEffect.putObject "reports" "ExaCC_report_2025-01-01_10:00.html"] :=
  rfl

/-- C8 amended: the scheduler's only mutating calls are the two node
lifecycle actions, each gated behind its confirm flag; additionally the ExaCC
report script writes the HTML report to an object-storage bucket exactly when
`--bucket-name` is given (and emails it when `--email` is given), with no
confirm-flag gating. -/
theorem c8_amended_side_effects :
    (∀ (env : Env) (region ts : String) (cs cp : Bool) (bucket : String)
        (cpts : List Compartment) (evts : List Event),
        process_all_compartments env region ts cs cp bucket cpts = Except.ok evts →
        ∀ r n a, Event.dbNodeAction r n a ∈ evts →
          (a = "START" ∧ cs = true) ∨ (a = "STOP" ∧ cp = true))
  ∧ report_side_effects Option.none Option.none "2025-01-01_10:00" Option.none = []
  ∧ (∀ (email bucket_name : Option String) (now_str : String)
        (sfx : Option String) (b o : String),
        ReportEffect.putObject b o ∈
            report_side_effects email bucket_name now_str sfx ↔
          (bucket_name = some b ∧ o = object_name now_str sfx)) := by
  refine ⟨action_flags_pass, rfl, ?_⟩
  intro email bucket_name now_str sfx b o
  cases email <;> cases bucket_name <;>
    simp [report_side_effects, eq_comm, and_comm]

/-- Witness for C8: the confirmed-stop pass over one compartment issues
exactly a STOP action, and the theorem classifies it. -/
theorem c8_amended_side_effects_witness :
    ("STOP" = "START" ∧ true = true) ∨ ("STOP" = "STOP" ∧ true = true) :=
  c8_amended_side_effects.1 envOne "eu-frankfurt-1" "21:00:03" true true
    "21:00_UTC" [cptActive]
    [Event.listDbSystems "eu-frankfurt-1" cptActive.id,
     Event.listDbNodes "eu-frankfurt-1" cptActive.id dbsBoth.id,
     Event.output (msg_stopping "eu-frankfurt-1" "21:00:03" cptActive dbsBoth),
     Event.dbNodeAction "eu-frankfurt-1" nodeAvail.id "STOP"] rfl
    "eu-frankfurt-1" nodeAvail.id "STOP" (by simp)

end OciScripts
